import Mathlib

/-!
Verification of cvmanager: `gok8s/workload/provider.go`

A shallow embedding of the workload provider: image-version extraction
(`version`), declaration lookup (`CV`), rollout-status persistence
(`UpdateRolloutStatus`), workload discovery (`Workloads`) and aggregation
(`CVResources`, `AllResources`).

Conventions of the embedding:

* A Go call that may abort with a run-time panic returns `GoResult`.
* A Go pointer result is an `Option` (`none` is the nil pointer); a Go `error`
  result is an `Option GoError` (`none` is the nil error); a Go slice result is a
  `List` (the nil slice is `[]`).
* The two cluster clients are interfaces whose implementations live outside this
  package; they are parameters, and every client call threads the cluster
  state `σ` so that the calls that were issued can be read off the final state.
-/

namespace Cvmanager

/-! ## Run-time panics -/

/-- The run-time panics the provider code can raise. -/
inductive Panic where
  | indexOutOfRange
  | nilDereference
  deriving DecidableEq, Repr

/-- Outcome of a Go evaluation: a value, or a run-time panic. -/
inductive GoResult (α : Type) where
  | value (a : α)
  | panic (p : Panic)
  deriving DecidableEq, Repr

/-- Go slice indexing `xs[i]`: panics when `i` is out of range. -/
def sliceIndex {α : Type} (xs : List α) (i : Nat) : GoResult α :=
  match xs.get? i with
  | some a => .value a
  | none => .panic .indexOutOfRange

/-! ## `strings.SplitAfterN`

Go strings are byte sequences; they are modelled as lists of characters. The only
separator used by the provider is `":"`, a single byte that never occurs inside
a multi-byte UTF-8 sequence, so splitting on characters and on bytes agree. -/

/-- Go `strings.HasPrefix`. -/
def HasPrefix : List Char → List Char → Bool
  | _, [] => true
  | [], _ :: _ => false
  | c :: s, d :: p => c == d && HasPrefix s p

/-- Go `strings.Index`: the index of the first instance of `sep` in `s`
(`none` stands for `-1`). -/
def Index : List Char → List Char → Option Nat
  | [], sep => if sep.isEmpty then some 0 else none
  | c :: s, sep =>
    if HasPrefix (c :: s) sep then some 0
    else (Index s sep).map (· + 1)

/-- Go `strings.explode`: splits `s` into at most `n` one-character strings, the
last one holding the unsplit remainder. -/
def explode : List Char → Nat → List (List Char)
  | [], _ => []
  | _ :: _, 0 => []
  | c :: s, 1 => [c :: s]
  | c :: s, n + 2 => [c] :: explode s (n + 1)

/-- The loop of Go `strings.genSplit`: `fuel` is the number of remaining splits
(`n - 1 - i`). -/
def genSplitLoop (sep : List Char) (sepSave : Nat) : Nat → List Char → List (List Char)
  | 0, s => [s]
  | fuel + 1, s =>
    match Index s sep with
    | none => [s]
    | some m => s.take (m + sepSave) :: genSplitLoop sep sepSave fuel (s.drop (m + sep.length))

/-- Go `strings.genSplit` for a count `n ≥ 0` (the provider passes the constant 2). -/
def genSplit (s sep : List Char) (sepSave : Nat) (n : Nat) : List (List Char) :=
  if n = 0 then []
  else if sep.isEmpty then explode s n
  else
    let n := if n > s.length + 1 then s.length + 1 else n
    genSplitLoop sep sepSave (n - 1) s

/-- Go `strings.SplitAfterN(s, sep, n)`. -/
def SplitAfterN (s sep : List Char) (n : Nat) : List (List Char) :=
  genSplit s sep sep.length n

/-- The provider function `version`:
`return strings.SplitAfterN(img, ":", 2)[1]`. -/
def version (img : String) : GoResult String :=
  match sliceIndex (SplitAfterN img.data [':'] 2) 1 with
  | .value v => .value (String.mk v)
  | .panic p => .panic p

/-! ## Errors (`github.com/pkg/errors`) -/

/-- A non-nil Go `error` value: an error produced by a client, or one of the
wrappers of `github.com/pkg/errors`. -/
inductive GoError where
  | base (msg : String)
  | withMessage (cause : GoError) (msg : String)
  | withStack (cause : GoError)
  deriving DecidableEq, Repr

/-- The wrapper `errors.Wrap(err, message)` for a non-nil `err`. -/
def Wrap (err : GoError) (message : String) : GoError :=
  .withStack (.withMessage err message)

/-- The wrapper `errors.Wrapf(err, format, args...)` for a non-nil `err`; `message` is
the formatted text. -/
def Wrapf (err : GoError) (message : String) : GoError :=
  .withStack (.withMessage err message)

/-- The wrapper `errors.WithStack(err)` for a non-nil `err`. -/
def WithStack (err : GoError) : GoError :=
  .withStack err

/-! ## Data model -/

def StatusFailed : String := "Failed"
def StatusSuccess : String := "Success"
def StatusProgressing : String := "Progressing"

/-- Go `time.Time`, as an instant. -/
structure GoTime where
  unixNano : Int
  deriving DecidableEq, Repr

/-- The wrapper `metav1.Time`. -/
structure MetaTime where
  Time : GoTime
  deriving DecidableEq, Repr

/-- The constructor `metav1.NewTime`. -/
def NewTime (tm : GoTime) : MetaTime := ⟨tm⟩

/-- The rollout-status record of a ContainerVersion declaration. -/
structure ContainerVersionStatus where
  CurrVersion : String
  CurrStatus : String
  CurrStatusTime : MetaTime
  SuccessVersion : String
  deriving DecidableEq, Repr

/-- The part of a declaration's spec the provider reads: the label selector. -/
structure ContainerVersionSpec where
  Selector : List (String × String)
  deriving DecidableEq, Repr

/-- The declaration `cv1.ContainerVersion`, with the fields the provider uses. -/
structure ContainerVersion where
  Name : String
  Spec : ContainerVersionSpec
  Status : ContainerVersionStatus
  deriving DecidableEq, Repr

/-- The list object `cv1.ContainerVersionList`. -/
structure ContainerVersionList where
  Items : List ContainerVersion
  deriving DecidableEq, Repr

/-- The summary `Resource`. -/
structure Resource where
  Namespace : String
  Name : String
  Type_ : String
  Container : String
  Version : String
  AvailablePods : Int
  CV : String
  Tag : String
  deriving DecidableEq, Repr

/-- The options `metav1.ListOptions`, with the field the provider sets. -/
structure ListOptions where
  LabelSelector : String
  deriving DecidableEq, Repr

/-- The options `metav1.GetOptions`; the provider always passes the zero value. -/
structure GetOptions where
  deriving DecidableEq, Repr

/-- A typed list object of the cluster API (`DeploymentList`, `PodList`, ...). -/
structure ObjectList (Obj : Type) where
  Items : List Obj
  deriving DecidableEq, Repr

/-! ## The client interfaces -/

/-- A client call on cluster state `σ`: the Go result pair `(*T, error)` and the
state the call leaves. -/
abbrev ClientCall (σ T : Type) := σ → (Option T × Option GoError) × σ

/-- The declaration client of one namespace
(`cvcs.CustomV1().ContainerVersions(namespace)`). -/
structure ContainerVersionInterface (σ : Type) where
  Get : String → GetOptions → ClientCall σ ContainerVersion
  Update : ContainerVersion → ClientCall σ ContainerVersion
  List : ListOptions → ClientCall σ ContainerVersionList

/-- The list calls of `kubernetes.Interface` the provider uses, each taking the
namespace and the list options. -/
structure KubeInterface (σ Obj : Type) where
  Deployments : String → ListOptions → ClientCall σ (ObjectList Obj)
  CronJobs : String → ListOptions → ClientCall σ (ObjectList Obj)
  DaemonSets : String → ListOptions → ClientCall σ (ObjectList Obj)
  Jobs : String → ListOptions → ClientCall σ (ObjectList Obj)
  Pods : String → ListOptions → ClientCall σ (ObjectList Obj)
  ReplicaSets : String → ListOptions → ClientCall σ (ObjectList Obj)
  StatefulSets : String → ListOptions → ClientCall σ (ObjectList Obj)

/-- The per-kind adapters of the package (declared in sibling files) and the label
library, taken as parameters: the seven constructors, the `AsResource` method of
the resulting workloads, and `labels.Set(selector).AsSelector().String()`. -/
structure Adapters (σ Obj W : Type) where
  NewDeployment : KubeInterface σ Obj → String → Obj → W
  NewCronJob : KubeInterface σ Obj → String → Obj → W
  NewDaemonSet : KubeInterface σ Obj → String → Obj → W
  NewJob : KubeInterface σ Obj → String → Obj → W
  NewPod : KubeInterface σ Obj → String → Obj → W
  NewReplicaSet : KubeInterface σ Obj → String → Obj → W
  NewStatefulSet : KubeInterface σ Obj → String → Obj → W
  AsResource : W → ContainerVersion → Resource
  selectorString : List (String × String) → String

/-- The struct `Provider`: the two clients and the namespace. -/
structure Provider (σ Obj : Type) where
  cs : KubeInterface σ Obj
  cvcs : String → ContainerVersionInterface σ
  namespace_ : String

/-! ## Provider operations -/

/-- The method `Provider.CV`. -/
def Provider.CV {σ Obj : Type} (k : Provider σ Obj) (name : String) (s : σ) :
    (Option ContainerVersion × Option GoError) × σ :=
  let client := k.cvcs k.namespace_
  match client.Get name {} s with
  | ((_, some err), s1) =>
    ((none, some (Wrapf err ("failed to get ContainerVersion instance with name " ++ name))), s1)
  | ((cv, none), s1) => ((cv, none), s1)

/-- Lines 155-161 of `UpdateRolloutStatus`: the in-place modification of the fetched
declaration. -/
def setRolloutStatus (cv : ContainerVersion) (version status : String) (tm : GoTime) :
    ContainerVersion :=
  let cv := { cv with Status := { cv.Status with CurrVersion := version } }
  let cv := { cv with Status := { cv.Status with CurrStatus := status } }
  let cv := { cv with Status := { cv.Status with CurrStatusTime := NewTime tm } }
  if status = StatusSuccess then
    { cv with Status := { cv.Status with SuccessVersion := version } }
  else cv

/-- The method `Provider.UpdateRolloutStatus`. On the error path of `Get` the source
formats `cv.Name`, which dereferences the pointer `Get` returned. -/
def Provider.UpdateRolloutStatus {σ Obj : Type} (k : Provider σ Obj)
    (cvName version status : String) (tm : GoTime) (s : σ) :
    GoResult ((Option ContainerVersion × Option GoError) × σ) :=
  let client := k.cvcs k.namespace_
  match client.Get cvName {} s with
  | ((none, some _), _) => .panic .nilDereference
  | ((some cv, some err), s1) =>
    .value ((none, some (Wrapf err
      ("failed to get ContainerVersion instance with name " ++ cv.Name))), s1)
  | ((none, none), _) => .panic .nilDereference
  | ((some cv, none), s1) =>
    let cv := setRolloutStatus cv version status tm
    match client.Update cv s1 with
    | ((_, some err), s2) =>
      .value ((none, some (Wrapf err
        ("failed to update ContainerVersion spec " ++ cv.Name))), s2)
    | ((result, none), s2) => .value ((result, none), s2)

/-- The method `Provider.handleError`. -/
def Provider.handleError {σ Obj : Type} (_k : Provider σ Obj) (err : GoError) (typ : String) :
    GoError :=
  Wrapf err ("failed to get " ++ typ)

/-- The method `Provider.Workloads`: seven list calls in sequence; a failing call
returns at once with the nil slice. -/
def Provider.Workloads {σ Obj W : Type} (k : Provider σ Obj) (a : Adapters σ Obj W)
    (cv : ContainerVersion) (s : σ) : GoResult ((List W × Option GoError) × σ) :=
  let result : List W := []
  let listOpts : ListOptions := { LabelSelector := a.selectorString cv.Spec.Selector }
  match k.cs.Deployments k.namespace_ listOpts s with
  | ((_, some err), s1) => .value (([], some (k.handleError err "deployments")), s1)
  | ((none, none), _) => .panic .nilDereference
  | ((some deployments, none), s1) =>
  let result := result ++ deployments.Items.map (a.NewDeployment k.cs k.namespace_)
  match k.cs.CronJobs k.namespace_ listOpts s1 with
  | ((_, some err), s2) => .value (([], some (k.handleError err "cronJobs")), s2)
  | ((none, none), _) => .panic .nilDereference
  | ((some cronJobs, none), s2) =>
  let result := result ++ cronJobs.Items.map (a.NewCronJob k.cs k.namespace_)
  match k.cs.DaemonSets k.namespace_ listOpts s2 with
  | ((_, some err), s3) => .value (([], some (k.handleError err "daemonSets")), s3)
  | ((none, none), _) => .panic .nilDereference
  | ((some daemonSets, none), s3) =>
  let result := result ++ daemonSets.Items.map (a.NewDaemonSet k.cs k.namespace_)
  match k.cs.Jobs k.namespace_ listOpts s3 with
  | ((_, some err), s4) => .value (([], some (k.handleError err "jobs")), s4)
  | ((none, none), _) => .panic .nilDereference
  | ((some jobs, none), s4) =>
  let result := result ++ jobs.Items.map (a.NewJob k.cs k.namespace_)
  match k.cs.Pods k.namespace_ listOpts s4 with
  | ((_, some err), s5) => .value (([], some (k.handleError err "pods")), s5)
  | ((none, none), _) => .panic .nilDereference
  | ((some pods, none), s5) =>
  let result := result ++ pods.Items.map (a.NewPod k.cs k.namespace_)
  match k.cs.ReplicaSets k.namespace_ listOpts s5 with
  | ((_, some err), s6) => .value (([], some (k.handleError err "replicaSets")), s6)
  | ((none, none), _) => .panic .nilDereference
  | ((some replicaSets, none), s6) =>
  let result := result ++ replicaSets.Items.map (a.NewReplicaSet k.cs k.namespace_)
  match k.cs.StatefulSets k.namespace_ listOpts s6 with
  | ((_, some err), s7) => .value (([], some (k.handleError err "statefulSets")), s7)
  | ((none, none), _) => .panic .nilDereference
  | ((some statefulSets, none), s7) =>
  let result := result ++ statefulSets.Items.map (a.NewStatefulSet k.cs k.namespace_)
  .value ((result, none), s7)

/-- The method `Provider.CVResources`. -/
def Provider.CVResources {σ Obj W : Type} (k : Provider σ Obj) (a : Adapters σ Obj W)
    (cv : ContainerVersion) (s : σ) : GoResult ((List Resource × Option GoError) × σ) :=
  match k.Workloads a cv s with
  | .panic p => .panic p
  | .value ((_, some err), s1) => .value (([], some (WithStack err)), s1)
  | .value ((specs, none), s1) =>
    .value ((specs.map (fun spec => a.AsResource spec cv), none), s1)

/-- The loop of `Provider.AllResources` over the listed declarations, with the
resources gathered so far. -/
def Provider.allResourcesLoop {σ Obj W : Type} (k : Provider σ Obj) (a : Adapters σ Obj W) :
    List ContainerVersion → List Resource → σ →
      GoResult ((List Resource × Option GoError) × σ)
  | [], cvsList, s => .value ((cvsList, none), s)
  | cv :: rest, cvsList, s =>
    match k.CVResources a cv s with
    | .panic p => .panic p
    | .value ((_, some err), s1) =>
      .value (([], some (Wrap err "Failed to generate template of CV list")), s1)
    | .value ((cvs, none), s1) => k.allResourcesLoop a rest (cvsList ++ cvs) s1

/-- The method `Provider.AllResources`. -/
def Provider.AllResources {σ Obj W : Type} (k : Provider σ Obj) (a : Adapters σ Obj W)
    (s : σ) : GoResult ((List Resource × Option GoError) × σ) :=
  match (k.cvcs k.namespace_).List { LabelSelector := "" } s with
  | ((_, some err), s1) =>
    .value (([], some (Wrap err "Failed to generate template of CV list")), s1)
  | ((none, none), _) => .panic .nilDereference
  | ((some cvs, none), s1) => k.allResourcesLoop a cvs.Items [] s1

/-! ## Vocabulary of the statements -/

/-- The seven workload kinds. -/
inductive Kind where
  | Deployment | CronJob | DaemonSet | Job | Pod | ReplicaSet | StatefulSet
  deriving DecidableEq, Repr

/-- The fixed order in which the kinds are listed. -/
def kindOrder : List Kind :=
  [.Deployment, .CronJob, .DaemonSet, .Job, .Pod, .ReplicaSet, .StatefulSet]

/-- The name under which a kind appears in a listing error. -/
def Kind.listName : Kind → String
  | .Deployment => "deployments"
  | .CronJob => "cronJobs"
  | .DaemonSet => "daemonSets"
  | .Job => "jobs"
  | .Pod => "pods"
  | .ReplicaSet => "replicaSets"
  | .StatefulSet => "statefulSets"

/-- The list call of a kind. -/
def KubeInterface.lister {σ Obj : Type} (cs : KubeInterface σ Obj) :
    Kind → String → ListOptions → ClientCall σ (ObjectList Obj)
  | .Deployment => cs.Deployments
  | .CronJob => cs.CronJobs
  | .DaemonSet => cs.DaemonSets
  | .Job => cs.Jobs
  | .Pod => cs.Pods
  | .ReplicaSet => cs.ReplicaSets
  | .StatefulSet => cs.StatefulSets

/-- The adapter constructor of a kind. -/
def Adapters.wrap {σ Obj W : Type} (a : Adapters σ Obj W) :
    Kind → KubeInterface σ Obj → String → Obj → W
  | .Deployment => a.NewDeployment
  | .CronJob => a.NewCronJob
  | .DaemonSet => a.NewDaemonSet
  | .Job => a.NewJob
  | .Pod => a.NewPod
  | .ReplicaSet => a.NewReplicaSet
  | .StatefulSet => a.NewStatefulSet

/-- The list options `Workloads` builds for a declaration. -/
def listOptsOf {σ Obj W : Type} (a : Adapters σ Obj W) (cv : ContainerVersion) : ListOptions :=
  { LabelSelector := a.selectorString cv.Spec.Selector }

/-- Statement vocabulary: the listings of `kinds` issued in order from state `s`, each
from the state the previous one left, all succeeding; yields the wrapped items in
order and the final state. `none` when one of them does not succeed. -/
def listAll {σ Obj W : Type} (k : Provider σ Obj) (a : Adapters σ Obj W) (opts : ListOptions) :
    List Kind → σ → Option (List W × σ)
  | [], s => some ([], s)
  | kd :: rest, s =>
    match k.cs.lister kd k.namespace_ opts s with
    | ((some l, none), s1) =>
      match listAll k a opts rest s1 with
      | some (ws, s2) => some (l.Items.map (a.wrap kd k.cs k.namespace_) ++ ws, s2)
      | none => none
    | _ => none

/-- Statement vocabulary: `Workloads` called for the declarations `cvs` in order from
state `s`, each call succeeding; yields each declaration with its workloads and the
final state. `none` when one of the calls does not succeed. -/
def workloadsAll {σ Obj W : Type} (k : Provider σ Obj) (a : Adapters σ Obj W) :
    List ContainerVersion → σ → Option (List (ContainerVersion × List W) × σ)
  | [], s => some ([], s)
  | cv :: rest, s =>
    match k.Workloads a cv s with
    | .value ((ws, none), s1) =>
      match workloadsAll k a rest s1 with
      | some (found, s2) => some ((cv, ws) :: found, s2)
      | none => none
    | _ => none

/-- The listing sequence of `Workloads` over an arbitrary list of kinds, with the
workloads gathered so far; `Workloads` is this sequence over `kindOrder`. -/
def listFrom {σ Obj W : Type} (k : Provider σ Obj) (a : Adapters σ Obj W) (opts : ListOptions) :
    List Kind → List W → σ → GoResult ((List W × Option GoError) × σ)
  | [], acc, s => .value ((acc, none), s)
  | kd :: rest, acc, s =>
    match k.cs.lister kd k.namespace_ opts s with
    | ((_, some err), s1) => .value (([], some (Wrapf err ("failed to get " ++ kd.listName))), s1)
    | ((none, none), _) => .panic .nilDereference
    | ((some l, none), s1) =>
      listFrom k a opts rest (acc ++ l.Items.map (a.wrap kd k.cs k.namespace_)) s1

/-- Statement vocabulary: the resources of the found workloads, declaration by
declaration, each the `AsResource` of a workload applied to its declaration. -/
def resourcesOf {σ Obj W : Type} (a : Adapters σ Obj W)
    (found : List (ContainerVersion × List W)) : List Resource :=
  found.flatMap (fun p => p.2.map (fun w => a.AsResource w p.1))

/-- The assumptions on a declaration store under which a write is read back: `Get`
answers with a declaration of the requested name, and after a successful `Update`
a `Get` of the written declaration's name succeeds with the written status. -/
structure StoreLaws {σ : Type} (c : ContainerVersionInterface σ) : Prop where
  get_name : ∀ name s cv s1, c.Get name {} s = ((some cv, none), s1) → cv.Name = name
  get_after_update : ∀ cv s r s1, c.Update cv s = ((r, none), s1) →
    ∃ cv1 s2, c.Get cv.Name {} s1 = ((some cv1, none), s2) ∧ cv1.Status = cv.Status

/-- The assumption on a declaration store under which a written `SuccessVersion` is
read back: a `Get` of the written declaration's name that succeeds after a
successful `Update` shows the `SuccessVersion` that was written. Nothing is asked of
the other fields, and `Get` is not required to succeed. -/
def ReadsBackSuccessVersion {σ : Type} (c : ContainerVersionInterface σ) : Prop :=
  ∀ cv s r s1 cv1 s2, c.Update cv s = ((r, none), s1) →
    c.Get cv.Name {} s1 = ((some cv1, none), s2) →
    cv1.Status.SuccessVersion = cv.Status.SuccessVersion

/-! ## An example cluster

An in-memory cluster that records the client calls it receives, used to evaluate
the provider on concrete inputs. -/

/-- A client call as recorded by the example cluster. -/
inductive ClientOp where
  | get (name : String)
  | update (name : String)
  | listCVs
  | list (kind : Kind) (selector : String)
  deriving DecidableEq, Repr

/-- The example cluster: the stored declarations, the stored objects (kind, label,
name), the listings (kind, label) that are out of order, whether a failed `Get` answers with
a zero-value object (as the REST client does) or with the nil pointer (as the
fake client does), and the calls received so far. -/
structure Cluster where
  cvs : List ContainerVersion
  objects : List (Kind × String × String)
  broken : List (Kind × String)
  zeroOnError : Bool
  log : List ClientOp
  deriving DecidableEq, Repr

/-- The zero value of `ContainerVersion`. -/
def zeroCV : ContainerVersion :=
  { Name := "", Spec := { Selector := [] },
    Status := { CurrVersion := "", CurrStatus := "", CurrStatusTime := ⟨⟨0⟩⟩,
                SuccessVersion := "" } }

def notFound : GoError := .base "not found"
def unavailable : GoError := .base "service unavailable"

/-- Replaces the stored declaration named as `cv`. -/
def replaceCV (cv : ContainerVersion) : List ContainerVersion → List ContainerVersion
  | [] => []
  | c :: rest => if c.Name = cv.Name then cv :: rest else c :: replaceCV cv rest

/-- The declaration client of the example cluster. -/
def exampleCVClient : ContainerVersionInterface Cluster where
  Get := fun name _ s =>
    let s1 := { s with log := s.log ++ [.get name] }
    match s.cvs.find? (fun c => c.Name = name) with
    | some cv => ((some cv, none), s1)
    | none => ((if s.zeroOnError then some zeroCV else none, some notFound), s1)
  Update := fun cv s =>
    let s1 := { s with log := s.log ++ [.update cv.Name] }
    match s.cvs.find? (fun c => c.Name = cv.Name) with
    | some _ => ((some cv, none), { s1 with cvs := replaceCV cv s.cvs })
    | none => ((none, some notFound), s1)
  List := fun _ s =>
    ((some ⟨s.cvs⟩, none), { s with log := s.log ++ [.listCVs] })

/-- The list call of the example cluster for one kind. -/
def exampleList (kind : Kind) (_ns : String) (opts : ListOptions) :
    ClientCall Cluster (ObjectList String) := fun s =>
  let s1 := { s with log := s.log ++ [.list kind opts.LabelSelector] }
  if (kind, opts.LabelSelector) ∈ s.broken then ((none, some unavailable), s1)
  else
    ((some ⟨(s.objects.filter
        (fun o => o.1 = kind ∧ o.2.1 = opts.LabelSelector)).map (fun o => o.2.2)⟩, none), s1)

/-- The workload client of the example cluster. -/
def exampleKube : KubeInterface Cluster String where
  Deployments := exampleList .Deployment
  CronJobs := exampleList .CronJob
  DaemonSets := exampleList .DaemonSet
  Jobs := exampleList .Job
  Pods := exampleList .Pod
  ReplicaSets := exampleList .ReplicaSet
  StatefulSets := exampleList .StatefulSet

/-- A workload of the example cluster. -/
structure ExampleWorkload where
  kind : Kind
  ns : String
  name : String
  deriving DecidableEq, Repr

/-- The adapters of the example cluster; `AsResource` records the declaration's name
in the field `CV`. -/
def exampleAdapters : Adapters Cluster String ExampleWorkload where
  NewDeployment := fun _ ns o => ⟨.Deployment, ns, o⟩
  NewCronJob := fun _ ns o => ⟨.CronJob, ns, o⟩
  NewDaemonSet := fun _ ns o => ⟨.DaemonSet, ns, o⟩
  NewJob := fun _ ns o => ⟨.Job, ns, o⟩
  NewPod := fun _ ns o => ⟨.Pod, ns, o⟩
  NewReplicaSet := fun _ ns o => ⟨.ReplicaSet, ns, o⟩
  NewStatefulSet := fun _ ns o => ⟨.StatefulSet, ns, o⟩
  AsResource := fun w cv =>
    { Namespace := w.ns, Name := w.name, Type_ := w.kind.listName, Container := "",
      Version := "", AvailablePods := 0, CV := cv.Name, Tag := "" }
  selectorString := fun sel =>
    match sel with
    | [] => ""
    | (_, v) :: _ => v

/-- The provider of the example cluster. -/
def exampleProvider : Provider Cluster String where
  cs := exampleKube
  cvcs := fun _ => exampleCVClient
  namespace_ := "default"

/-- A declaration named `name` selecting the label `label`, with empty status. -/
def declaration (name label : String) : ContainerVersion :=
  { zeroCV with Name := name, Spec := { Selector := [("app", label)] } }

/-- An example cluster with the declarations `cv1` and `cv2`. -/
def cluster0 : Cluster where
  cvs := [declaration "cv1" "a", declaration "cv2" "b"]
  objects := [(.Deployment, "a", "web"), (.Pod, "a", "web-1"), (.Job, "b", "migrate"),
              (.Pod, "a", "web-2"), (.StatefulSet, "b", "db")]
  broken := []
  zeroOnError := false
  log := []

/-- The example cluster after `UpdateRolloutStatus("cv1", "v2", Success, t)`. -/
def cluster1 : Cluster :=
  match exampleProvider.UpdateRolloutStatus "cv1" "v2" StatusSuccess ⟨10⟩ cluster0 with
  | .value (_, s) => s
  | .panic _ => cluster0

/-- Rounds a time down to whole seconds, as the serialised form of `metav1.Time`
does. -/
def truncateToSeconds (t : MetaTime) : MetaTime :=
  ⟨⟨t.Time.unixNano / 1000000000 * 1000000000⟩⟩

/-- What a serialising store keeps of a declaration: all of it, with the status time
rounded down to whole seconds. -/
def persisted (cv : ContainerVersion) : ContainerVersion :=
  { cv with Status :=
      { cv.Status with CurrStatusTime := truncateToSeconds cv.Status.CurrStatusTime } }

/-- A declaration client on the example cluster that stores, and returns from
`Update`, the serialised form of what it is given. -/
def truncatingCVClient : ContainerVersionInterface Cluster where
  Get := exampleCVClient.Get
  Update := fun cv s =>
    let s1 := { s with log := s.log ++ [.update cv.Name] }
    match s.cvs.find? (fun c => c.Name = cv.Name) with
    | some _ => ((some (persisted cv), none), { s1 with cvs := replaceCV (persisted cv) s.cvs })
    | none => ((none, some notFound), s1)
  List := exampleCVClient.List

/-- The provider of the example cluster over the serialising declaration client. -/
def truncatingProvider : Provider Cluster String where
  cs := exampleKube
  cvcs := fun _ => truncatingCVClient
  namespace_ := "default"

/-- The example cluster, on the serialising store, after
`UpdateRolloutStatus("cv1", "v2", Success, t)` with `t` at 1.5 seconds. -/
def clusterT1 : Cluster :=
  match truncatingProvider.UpdateRolloutStatus "cv1" "v2" StatusSuccess ⟨1500000000⟩ cluster0 with
  | .value (_, s) => s
  | .panic _ => cluster0

/-- The same cluster after the further call
`UpdateRolloutStatus("cv1", "v3", Failed, t2)` with `t2` at 2.7 seconds. -/
def clusterT2 : Cluster :=
  match truncatingProvider.UpdateRolloutStatus "cv1" "v3" StatusFailed ⟨2700000000⟩ clusterT1 with
  | .value (_, s) => s
  | .panic _ => clusterT1

/-- The declaration `cv1` of the example cluster. -/
def exampleCV1 : ContainerVersion := declaration "cv1" "a"

/-- The example cluster with the job listing for the label `a` out of order. -/
def clusterBrokenJobs : Cluster := { cluster0 with broken := [(.Job, "a")] }

/-- The example cluster after the listings of the first `n` kinds for the label `a`. -/
def listedUpTo (n : Nat) : Cluster :=
  { cluster0 with log := (kindOrder.take n).map (fun kd => .list kd "a") }

/-- An example cluster with three declarations, where the job listing fails for the
second one. -/
def cluster3 : Cluster :=
  { cluster0 with
    cvs := [declaration "cv1" "a", declaration "cv2" "b", declaration "cv3" "c"],
    broken := [(.Job, "b")] }

/-! ## Image-version extraction -/

theorem Index_colon (pre rest : List Char) (h : ':' ∉ pre) :
    Index (pre ++ ':' :: rest) [':'] = some pre.length := by
  induction pre with
  | nil => simp [Index, HasPrefix]
  | cons c pre ih =>
    have hc : c ≠ ':' := fun e => h (by simp [e])
    have hp : ':' ∉ pre := fun e => h (by simp [e])
    simp [Index, HasPrefix, hc, ih hp]

theorem Index_no_colon (s : List Char) (h : ':' ∉ s) : Index s [':'] = none := by
  induction s with
  | nil => simp [Index]
  | cons c s ih =>
    have hc : c ≠ ':' := fun e => h (by simp [e])
    have hp : ':' ∉ s := fun e => h (by simp [e])
    simp [Index, HasPrefix, hc, ih hp]

theorem first_colon (s : List Char) (h : ':' ∈ s) :
    ∃ pre rest, s = pre ++ ':' :: rest ∧ ':' ∉ pre := by
  induction s with
  | nil => simp at h
  | cons c s ih =>
    by_cases hc : c = ':'
    · exact ⟨[], s, by simp [hc], by simp⟩
    · have hs : ':' ∈ s := by
        rcases List.mem_cons.mp h with e | e
        · exact absurd e.symm hc
        · exact e
      obtain ⟨pre, rest, e, hp⟩ := ih hs
      refine ⟨c :: pre, rest, by simp [e], ?_⟩
      intro hm
      rcases List.mem_cons.mp hm with e1 | e1
      · exact hc e1.symm
      · exact hp e1

theorem SplitAfterN_colon (pre rest : List Char) (h : ':' ∉ pre) :
    SplitAfterN (pre ++ ':' :: rest) [':'] 2 = [pre ++ [':'], rest] := by
  simp [SplitAfterN, genSplit, genSplitLoop, Index_colon pre rest h, List.take_append_eq_append_take,
    List.drop_append_eq_append_drop]

theorem SplitAfterN_no_colon (s : List Char) (h : ':' ∉ s) :
    SplitAfterN s [':'] 2 = [s] := by
  unfold SplitAfterN genSplit
  by_cases hl : 2 > s.length + 1
  · have : s = [] := by
      cases s with
      | nil => rfl
      | cons c s => simp at hl; omega
    subst this
    simp [genSplitLoop]
  · simp [hl, genSplitLoop, Index_no_colon s h]

/-- Every image reference without a `:` makes `version` panic on the index `[1]`. -/
theorem version_no_colon (img : String) (h : ':' ∉ img.data) :
    version img = .panic .indexOutOfRange := by
  simp [version, SplitAfterN_no_colon img.data h, sliceIndex]

/-- C1: for an image reference containing a `:`, `version` returns the substring
strictly after the first `:`: the reference is `pre ++ ":" ++ v` with no `:` in
`pre`, and `v`, with any later `:` in it, is the value returned. -/
theorem version_after_first_colon (img : String) (h : ':' ∈ img.data) :
    ∃ pre v : String, ':' ∉ pre.data ∧ img = pre ++ ":" ++ v ∧ version img = .value v := by
  obtain ⟨pre, rest, e, hp⟩ := first_colon img.data h
  refine ⟨⟨pre⟩, ⟨rest⟩, hp, ?_, ?_⟩
  · apply String.ext
    simp [e]
  · simp [version, e, SplitAfterN_colon pre rest hp, sliceIndex]

/-- Witness for C1: the tag of `repo:5000/app:v1` keeps its later colon. -/
theorem version_after_first_colon_witness :
    ':' ∈ "repo:5000/app:v1".data ∧
    (∃ pre v : String, ':' ∉ pre.data ∧ "repo:5000/app:v1" = pre ++ ":" ++ v ∧
      version "repo:5000/app:v1" = .value v) ∧
    version "repo:5000/app:v1" = .value "5000/app:v1" :=
  ⟨by decide, version_after_first_colon "repo:5000/app:v1" (by decide), by decide⟩

/-- C2: on the image reference `nginx`, which has no `:`, `version` raises the
run-time panic of an out-of-range index instead of returning an error value. -/
theorem version_nginx_panics :
    ':' ∉ "nginx".data ∧ version "nginx" = .panic .indexOutOfRange :=
  ⟨by decide, by decide⟩

/-! ## Declaration lookup -/

/-- C9: when `Get` fails, `CV` returns the nil declaration and the `Get` error
wrapped with the requested name; when `Get` succeeds, `CV` returns exactly what
`Get` yielded; and `CV` returns a declaration only when `Get` succeeded with it. -/
theorem CV_returns_get_or_wrapped_error {σ Obj : Type} (k : Provider σ Obj) (name : String)
    (s : σ) :
    (∀ p e s1, (k.cvcs k.namespace_).Get name {} s = ((p, some e), s1) →
      k.CV name s = ((none, some (Wrapf e
        ("failed to get ContainerVersion instance with name " ++ name))), s1)) ∧
    (∀ p s1, (k.cvcs k.namespace_).Get name {} s = ((p, none), s1) →
      k.CV name s = ((p, none), s1)) ∧
    (∀ cv e s1, k.CV name s = ((some cv, e), s1) →
      e = none ∧ (k.cvcs k.namespace_).Get name {} s = ((some cv, none), s1)) := by
  refine ⟨?_, ?_, ?_⟩
  · intro p e s1 h
    simp [Provider.CV, h]
  · intro p s1 h
    simp [Provider.CV, h]
  · intro cv e s1 h
    rcases hg : (k.cvcs k.namespace_).Get name {} s with ⟨⟨p, e1⟩, s2⟩
    cases e1 with
    | some err => simp [Provider.CV, hg] at h
    | none =>
      simp only [Provider.CV, hg, Prod.mk.injEq] at h
      obtain ⟨⟨h1, h2⟩, h3⟩ := h
      subst h1 h2 h3
      exact ⟨rfl, rfl⟩

/-- Witness for C9: in the example cluster `CV "missing"` fails with the wrapped
not-found error and no declaration, and `CV "cv1"` returns the stored declaration. -/
theorem CV_returns_get_or_wrapped_error_witness :
    (exampleProvider.CV "missing" cluster0).1 =
      (none, some (Wrapf notFound "failed to get ContainerVersion instance with name missing")) ∧
    (exampleProvider.CV "cv1" cluster0).1 = (some (declaration "cv1" "a"), none) :=
  ⟨by
    have h := (CV_returns_get_or_wrapped_error exampleProvider "missing" cluster0).1
      none notFound { cluster0 with log := [.get "missing"] } (by decide)
    rw [h]; decide,
   by
    have h := (CV_returns_get_or_wrapped_error exampleProvider "cv1" cluster0).2.1
      (some (declaration "cv1" "a")) { cluster0 with log := [.get "cv1"] } (by decide)
    rw [h]⟩

/-! ## Rollout-status persistence -/

theorem setRolloutStatus_status (cv : ContainerVersion) (version status : String) (tm : GoTime) :
    (setRolloutStatus cv version status tm).Name = cv.Name ∧
    (setRolloutStatus cv version status tm).Status.CurrVersion = version ∧
    (setRolloutStatus cv version status tm).Status.CurrStatus = status ∧
    (setRolloutStatus cv version status tm).Status.CurrStatusTime = NewTime tm ∧
    (setRolloutStatus cv version status tm).Status.SuccessVersion =
      if status = StatusSuccess then version else cv.Status.SuccessVersion := by
  unfold setRolloutStatus
  by_cases h : status = StatusSuccess <;> simp [h]

/-- A call of `UpdateRolloutStatus` that returns without error fetched a declaration
and wrote its modification. -/
theorem UpdateRolloutStatus_success_inv {σ Obj : Type} (k : Provider σ Obj)
    (cvName version status : String) (tm : GoTime) (s s' : σ) (r : Option ContainerVersion)
    (hrun : k.UpdateRolloutStatus cvName version status tm s = .value ((r, none), s')) :
    ∃ cv0 s1, (k.cvcs k.namespace_).Get cvName {} s = ((some cv0, none), s1) ∧
      (k.cvcs k.namespace_).Update (setRolloutStatus cv0 version status tm) s1 =
        ((r, none), s') := by
  rcases hg : (k.cvcs k.namespace_).Get cvName {} s with ⟨⟨p, e⟩, s1⟩
  cases p with
  | none => cases e <;> simp [Provider.UpdateRolloutStatus, hg] at hrun
  | some cv0 =>
    cases e with
    | some err => simp [Provider.UpdateRolloutStatus, hg] at hrun
    | none =>
      rcases hu : (k.cvcs k.namespace_).Update (setRolloutStatus cv0 version status tm) s1
        with ⟨⟨p2, e2⟩, s2⟩
      cases e2 with
      | some err => simp [Provider.UpdateRolloutStatus, hg, hu] at hrun
      | none =>
        simp only [Provider.UpdateRolloutStatus, hg, hu, GoResult.value.injEq,
          Prod.mk.injEq] at hrun
        obtain ⟨⟨h1, -⟩, h3⟩ := hrun
        subst h1 h3
        exact ⟨cv0, s1, rfl, hu⟩

/-- Under the store laws, a `CV` lookup after a successful write of `cv` under the
name `name` yields a declaration with the status of `cv`. -/
theorem CV_after_update {σ Obj : Type} (k : Provider σ Obj)
    (hlaws : StoreLaws (k.cvcs k.namespace_)) (name : String) (cv : ContainerVersion)
    (hname : cv.Name = name) (s s' : σ) (r : Option ContainerVersion)
    (hu : (k.cvcs k.namespace_).Update cv s = ((r, none), s')) :
    ∃ cv1 s2, k.CV name s' = ((some cv1, none), s2) ∧ cv1.Status = cv.Status := by
  obtain ⟨cv1, s2, hg, hst⟩ := hlaws.get_after_update cv s r s' hu
  rw [hname] at hg
  exact ⟨cv1, s2, by simp [Provider.CV, hg], hst⟩

theorem find_replaceCV (cv c : ContainerVersion) (l : List ContainerVersion)
    (h : l.find? (fun x => x.Name = cv.Name) = some c) :
    (replaceCV cv l).find? (fun x => x.Name = cv.Name) = some cv := by
  induction l with
  | nil => simp at h
  | cons x l ih =>
    by_cases hx : x.Name = cv.Name
    · simp [replaceCV, hx]
    · simp [List.find?, hx] at h
      simp [replaceCV, hx, List.find?, ih h]

/-- The declaration client of the example cluster satisfies the store laws. -/
theorem exampleCVClient_laws : StoreLaws exampleCVClient where
  get_name := by
    intro name s cv s1 h
    simp only [exampleCVClient] at h
    split at h
    · rename_i c hf
      simp only [Prod.mk.injEq, Option.some.injEq, and_true, true_and] at h
      have := List.find?_some hf
      rw [← h.1]
      simpa using this
    · simp at h
  get_after_update := by
    intro cv s r s1 h
    simp only [exampleCVClient] at h
    split at h
    · rename_i c hf
      simp only [Prod.mk.injEq, and_true] at h
      obtain ⟨-, h2⟩ := h
      subst h2
      have hf2 := find_replaceCV cv c s.cvs (by simpa using hf)
      simp only [exampleCVClient]
      simp only [decide_eq_true_eq] at hf2 ⊢
      rw [hf2]
      exact ⟨cv, _, rfl, rfl⟩
    · simp at h

/-- A `CV` lookup that returns a declaration is a successful `Get` of that
declaration. -/
theorem CV_some_inv {σ Obj : Type} (k : Provider σ Obj) (name : String) (s s1 : σ)
    (cv : ContainerVersion) (h : k.CV name s = ((some cv, none), s1)) :
    (k.cvcs k.namespace_).Get name {} s = ((some cv, none), s1) := by
  rcases hg : (k.cvcs k.namespace_).Get name {} s with ⟨⟨p, e⟩, s2⟩
  cases e with
  | some err => simp [Provider.CV, hg] at h
  | none =>
    simp only [Provider.CV, hg, Prod.mk.injEq, and_true] at h
    obtain ⟨h1, h2⟩ := h
    subst h1 h2
    rfl

/-- The serialising store reads back a written `SuccessVersion`. -/
theorem truncatingCVClient_reads_back : ReadsBackSuccessVersion truncatingCVClient := by
  intro cv s r s1 cv1 s2 hu hg
  simp only [truncatingCVClient] at hu
  split at hu
  · rename_i c hf
    simp only [Prod.mk.injEq, and_true] at hu
    obtain ⟨-, h2⟩ := hu
    subst h2
    have hn : (persisted cv).Name = cv.Name := rfl
    have hf2 := find_replaceCV (persisted cv) c s.cvs (by simpa [hn] using hf)
    simp only [truncatingCVClient, exampleCVClient] at hg
    simp only [decide_eq_true_eq, hn] at hf2 hg
    rw [hf2] at hg
    simp only [Prod.mk.injEq, Option.some.injEq, and_true, true_and] at hg
    rw [← hg.1]
    rfl
  · simp at hu

/-- The serialising store does not satisfy the store laws: the status time it reads
back is not the one written. -/
theorem truncatingCVClient_not_laws : ¬ StoreLaws truncatingCVClient := by
  intro hlaws
  obtain ⟨cv1, s2, hg, hst⟩ := hlaws.get_after_update
    (setRolloutStatus (declaration "cv1" "a") "v2" StatusSuccess ⟨1500000000⟩)
    cluster0 _ _ (show truncatingCVClient.Update
      (setRolloutStatus (declaration "cv1" "a") "v2" StatusSuccess ⟨1500000000⟩) cluster0 =
      ((some (persisted (setRolloutStatus (declaration "cv1" "a") "v2" StatusSuccess
        ⟨1500000000⟩)), none), { clusterT1 with log := [.update "cv1"] }) by decide)
  have hget : truncatingCVClient.Get
      (setRolloutStatus (declaration "cv1" "a") "v2" StatusSuccess ⟨1500000000⟩).Name {}
      { clusterT1 with log := [.update "cv1"] } =
      ((some (persisted (setRolloutStatus (declaration "cv1" "a") "v2" StatusSuccess
        ⟨1500000000⟩)), none), { clusterT1 with log := [.update "cv1", .get "cv1"] }) := by
    decide
  rw [hget] at hg
  simp only [Prod.mk.injEq, Option.some.injEq, true_and, and_true] at hg
  rw [← hg.1] at hst
  revert hst
  decide

/-- C3: for every declaration store, a call of `UpdateRolloutStatus` with a status
other than `Success` that returns without error fetched a declaration and handed to
`Update` that declaration with its `SuccessVersion` as fetched. Where the store
answers `Get` by name and reads back a written `SuccessVersion`, every following
lookup of the declaration shows the `SuccessVersion` it had before the call. -/
theorem UpdateRolloutStatus_keeps_SuccessVersion {σ Obj : Type} (k : Provider σ Obj)
    (cvName version status : String) (tm : GoTime) (s s' : σ) (r : Option ContainerVersion)
    (hstatus : status ≠ StatusSuccess)
    (hrun : k.UpdateRolloutStatus cvName version status tm s = .value ((r, none), s')) :
    ∃ cv0 s1, (k.cvcs k.namespace_).Get cvName {} s = ((some cv0, none), s1) ∧
      (k.cvcs k.namespace_).Update (setRolloutStatus cv0 version status tm) s1 =
        ((r, none), s') ∧
      (setRolloutStatus cv0 version status tm).Status.SuccessVersion =
        cv0.Status.SuccessVersion ∧
      (ReadsBackSuccessVersion (k.cvcs k.namespace_) → cv0.Name = cvName →
        ∀ cv1 s2, k.CV cvName s' = ((some cv1, none), s2) →
          cv1.Status.SuccessVersion = cv0.Status.SuccessVersion) := by
  obtain ⟨cv0, s1, hg, hu⟩ := UpdateRolloutStatus_success_inv k cvName version status tm s s' r hrun
  have hset := setRolloutStatus_status cv0 version status tm
  have hsv : (setRolloutStatus cv0 version status tm).Status.SuccessVersion =
      cv0.Status.SuccessVersion := by
    rw [hset.2.2.2.2, if_neg hstatus]
  refine ⟨cv0, s1, hg, hu, hsv, ?_⟩
  intro hread hname cv1 s2 hcv
  have hget := CV_some_inv k cvName s' s2 cv1 hcv
  have hwritten : (setRolloutStatus cv0 version status tm).Name = cvName := by
    rw [hset.1, hname]
  rw [← hwritten] at hget
  rw [hread _ s1 r s' cv1 s2 hu hget, hsv]

/-- Witness for C3: on the serialising store, after
`UpdateRolloutStatus("cv1", "v2", Success, t)`, the call
`UpdateRolloutStatus("cv1", "v3", Failed, t2)` leaves `SuccessVersion = "v2"`. -/
theorem UpdateRolloutStatus_keeps_SuccessVersion_witness :
    StatusFailed ≠ StatusSuccess ∧
    (∃ r, truncatingProvider.UpdateRolloutStatus "cv1" "v3" StatusFailed ⟨2700000000⟩
      clusterT1 = .value ((r, none), clusterT2)) ∧
    ∃ cv1 s2, truncatingProvider.CV "cv1" clusterT2 = ((some cv1, none), s2) ∧
      cv1.Status.SuccessVersion = "v2" := by
  have hrun : truncatingProvider.UpdateRolloutStatus "cv1" "v3" StatusFailed ⟨2700000000⟩
      clusterT1 = .value ((some (persisted (setRolloutStatus (persisted (setRolloutStatus
        (declaration "cv1" "a") "v2" StatusSuccess ⟨1500000000⟩)) "v3" StatusFailed
        ⟨2700000000⟩)), none), clusterT2) := by decide
  refine ⟨by decide, ⟨_, hrun⟩, ?_⟩
  obtain ⟨cv0, s1, hg, -, -, hread⟩ :=
    UpdateRolloutStatus_keeps_SuccessVersion truncatingProvider
      "cv1" "v3" StatusFailed ⟨2700000000⟩ clusterT1 clusterT2 _ (by decide) hrun
  have h0 : truncatingProvider.cvcs truncatingProvider.namespace_ = truncatingCVClient := rfl
  have hget : truncatingCVClient.Get "cv1" {} clusterT1 =
      ((some (persisted (setRolloutStatus (declaration "cv1" "a") "v2" StatusSuccess
        ⟨1500000000⟩)), none), { clusterT1 with log := clusterT1.log ++ [.get "cv1"] }) := by
    decide
  rw [h0, hget] at hg
  simp only [Prod.mk.injEq, Option.some.injEq, true_and, and_true] at hg
  have hcv : truncatingProvider.CV "cv1" clusterT2 =
      ((some (persisted (setRolloutStatus (persisted (setRolloutStatus
        (declaration "cv1" "a") "v2" StatusSuccess ⟨1500000000⟩)) "v3" StatusFailed
        ⟨2700000000⟩)), none), { clusterT2 with log := clusterT2.log ++ [.get "cv1"] }) := by
    decide
  refine ⟨_, _, hcv, ?_⟩
  rw [hread (h0 ▸ truncatingCVClient_reads_back) (by rw [← hg.1]; decide) _ _ hcv, ← hg.1]
  decide

/-- C4: under the store laws, when `UpdateRolloutStatus(n, v, "Success", t)` returns
without error, a following `CV(n)` on the resulting store returns a declaration with
`CurrVersion = v`, `CurrStatus = "Success"`, `CurrStatusTime = t` and
`SuccessVersion = v`. -/
theorem UpdateRolloutStatus_success_then_CV {σ Obj : Type} (k : Provider σ Obj)
    (hlaws : StoreLaws (k.cvcs k.namespace_))
    (n v : String) (tm : GoTime) (s s' : σ) (r : Option ContainerVersion)
    (hrun : k.UpdateRolloutStatus n v StatusSuccess tm s = .value ((r, none), s')) :
    ∃ cv s2, k.CV n s' = ((some cv, none), s2) ∧
      cv.Status.CurrVersion = v ∧ cv.Status.CurrStatus = "Success" ∧
      cv.Status.CurrStatusTime = NewTime tm ∧ cv.Status.SuccessVersion = v := by
  obtain ⟨cv0, s1, hg, hu⟩ := UpdateRolloutStatus_success_inv k n v StatusSuccess tm s s' r hrun
  have hset := setRolloutStatus_status cv0 v StatusSuccess tm
  have hname : (setRolloutStatus cv0 v StatusSuccess tm).Name = n := by
    rw [hset.1]; exact hlaws.get_name n s cv0 s1 hg
  obtain ⟨cv1, s2, hcv, hst⟩ := CV_after_update k hlaws n _ hname s1 s' r hu
  refine ⟨cv1, s2, hcv, ?_, ?_, ?_, ?_⟩
  · rw [hst, hset.2.1]
  · rw [hst, hset.2.2.1]; rfl
  · rw [hst, hset.2.2.2.1]
  · rw [hst, hset.2.2.2.2, if_pos rfl]

/-- Witness for C4: in the example cluster, `UpdateRolloutStatus("cv1", "v2", Success,
t)` followed by `CV("cv1")` yields the four status fields. -/
theorem UpdateRolloutStatus_success_then_CV_witness :
    ∃ cv s2, exampleProvider.CV "cv1" cluster1 = ((some cv, none), s2) ∧
      cv.Status.CurrVersion = "v2" ∧ cv.Status.CurrStatus = "Success" ∧
      cv.Status.CurrStatusTime = NewTime ⟨10⟩ ∧ cv.Status.SuccessVersion = "v2" :=
  UpdateRolloutStatus_success_then_CV exampleProvider exampleCVClient_laws
    "cv1" "v2" ⟨10⟩ cluster0 cluster1
    (some (setRolloutStatus (declaration "cv1" "a") "v2" StatusSuccess ⟨10⟩)) (by decide)

/-- When `Get` fails, `UpdateRolloutStatus` formats the name of the object `Get`
returned, not the requested name: with the nil pointer it panics, with a non-nil
object the message carries that object's name. No `Update` is issued. -/
theorem UpdateRolloutStatus_get_error {σ Obj : Type} (k : Provider σ Obj)
    (cvName version status : String) (tm : GoTime) (s s1 : σ) (e : GoError) :
    ((k.cvcs k.namespace_).Get cvName {} s = ((none, some e), s1) →
      k.UpdateRolloutStatus cvName version status tm s = .panic .nilDereference) ∧
    (∀ cv, (k.cvcs k.namespace_).Get cvName {} s = ((some cv, some e), s1) →
      k.UpdateRolloutStatus cvName version status tm s = .value ((none, some (Wrapf e
        ("failed to get ContainerVersion instance with name " ++ cv.Name))), s1)) := by
  refine ⟨?_, ?_⟩
  · intro h
    simp [Provider.UpdateRolloutStatus, h]
  · intro cv h
    simp [Provider.UpdateRolloutStatus, h]

/-- C8: in the example cluster, which has no declaration `missing`,
`UpdateRolloutStatus("missing", ...)` panics on the nil declaration when the failed
`Get` returns the nil pointer; when the failed `Get` returns a zero-value object the
error message carries the empty name instead of the requested one. -/
theorem UpdateRolloutStatus_missing_diverges :
    exampleProvider.UpdateRolloutStatus "missing" "v1" StatusFailed ⟨1⟩ cluster0 =
      .panic .nilDereference ∧
    exampleProvider.UpdateRolloutStatus "missing" "v1" StatusFailed ⟨1⟩
        { cluster0 with zeroOnError := true } =
      .value ((none, some (Wrapf notFound
        "failed to get ContainerVersion instance with name ")),
        { cluster0 with zeroOnError := true, log := [.get "missing"] }) ∧
    (exampleProvider.CV "missing" cluster0).1 =
      (none, some (Wrapf notFound
        "failed to get ContainerVersion instance with name missing")) :=
  ⟨by decide, by decide, by decide⟩

/-! ## Workload discovery -/

theorem Workloads_eq_listFrom {σ Obj W : Type} (k : Provider σ Obj) (a : Adapters σ Obj W)
    (cv : ContainerVersion) (s : σ) :
    k.Workloads a cv s = listFrom k a (listOptsOf a cv) kindOrder [] s := by
  rfl

theorem listFrom_of_listAll {σ Obj W : Type} (k : Provider σ Obj) (a : Adapters σ Obj W)
    (opts : ListOptions) (pre rest : List Kind) :
    ∀ (acc ws : List W) (s s1 : σ), listAll k a opts pre s = some (ws, s1) →
      listFrom k a opts (pre ++ rest) acc s = listFrom k a opts rest (acc ++ ws) s1 := by
  induction pre with
  | nil =>
    intro acc ws s s1 h
    simp only [listAll, Option.some.injEq, Prod.mk.injEq] at h
    obtain ⟨h1, h2⟩ := h
    subst h1 h2
    simp
  | cons kd pre ih =>
    intro acc ws s s1 h
    rcases hl : k.cs.lister kd k.namespace_ opts s with ⟨⟨p, e⟩, s2⟩
    cases p with
    | none => cases e <;> simp [listAll, hl] at h
    | some l =>
      cases e with
      | some err => simp [listAll, hl] at h
      | none =>
        simp only [listAll, hl] at h
        rcases hr : listAll k a opts pre s2 with _ | ⟨ws2, s3⟩
        · simp [hr] at h
        · simp only [hr, Option.some.injEq, Prod.mk.injEq] at h
          obtain ⟨h1, h2⟩ := h
          subst h1 h2
          rw [List.cons_append]
          simp only [listFrom, hl]
          rw [ih _ ws2 s2 s3 hr, List.append_assoc]

theorem listFrom_fail {σ Obj W : Type} (k : Provider σ Obj) (a : Adapters σ Obj W)
    (opts : ListOptions) (kd : Kind) (rest : List Kind) (acc : List W) (s s1 : σ)
    (p : Option (ObjectList Obj)) (e : GoError)
    (h : k.cs.lister kd k.namespace_ opts s = ((p, some e), s1)) :
    listFrom k a opts (kd :: rest) acc s =
      .value (([], some (Wrapf e ("failed to get " ++ kd.listName))), s1) := by
  simp [listFrom, h]

theorem listFrom_success_inv {σ Obj W : Type} (k : Provider σ Obj) (a : Adapters σ Obj W)
    (opts : ListOptions) (kinds : List Kind) :
    ∀ (acc ws : List W) (s s' : σ), listFrom k a opts kinds acc s = .value ((ws, none), s') →
      ∃ found, listAll k a opts kinds s = some (found, s') ∧ ws = acc ++ found := by
  induction kinds with
  | nil =>
    intro acc ws s s' h
    simp only [listFrom, GoResult.value.injEq, Prod.mk.injEq, and_true] at h
    exact ⟨[], by simp [listAll, h.2], by simp [h.1]⟩
  | cons kd kinds ih =>
    intro acc ws s s' h
    rcases hl : k.cs.lister kd k.namespace_ opts s with ⟨⟨p, e⟩, s2⟩
    cases e with
    | some err => simp [listFrom, hl] at h
    | none =>
      cases p with
      | none => simp [listFrom, hl] at h
      | some l =>
        simp only [listFrom, hl] at h
        obtain ⟨found, hf, hw⟩ := ih _ ws s2 s' h
        exact ⟨l.Items.map (a.wrap kd k.cs k.namespace_) ++ found, by simp [listAll, hl, hf],
          by simp [hw]⟩

theorem listFrom_error_inv {σ Obj W : Type} (k : Provider σ Obj) (a : Adapters σ Obj W)
    (opts : ListOptions) (kinds : List Kind) :
    ∀ (acc ws : List W) (e : GoError) (s s' : σ),
      listFrom k a opts kinds acc s = .value ((ws, some e), s') →
      ws = [] ∧ ∃ pre kd post found s1 p e0, kinds = pre ++ kd :: post ∧
        listAll k a opts pre s = some (found, s1) ∧
        k.cs.lister kd k.namespace_ opts s1 = ((p, some e0), s') ∧
        e = Wrapf e0 ("failed to get " ++ kd.listName) := by
  induction kinds with
  | nil =>
    intro acc ws e s s' h
    simp [listFrom] at h
  | cons kd kinds ih =>
    intro acc ws e s s' h
    rcases hl : k.cs.lister kd k.namespace_ opts s with ⟨⟨p, e1⟩, s2⟩
    cases e1 with
    | some err =>
      simp only [listFrom, hl, GoResult.value.injEq, Prod.mk.injEq, Option.some.injEq] at h
      obtain ⟨⟨h1, h2⟩, h3⟩ := h
      subst h3
      exact ⟨h1.symm, [], kd, kinds, [], s, p, err, rfl, rfl, hl, h2.symm⟩
    | none =>
      cases p with
      | none => simp [listFrom, hl] at h
      | some l =>
        simp only [listFrom, hl] at h
        obtain ⟨hw, pre, kd2, post, found, s1, p2, e0, hk, hall, hfail, he⟩ := ih _ ws e s2 s' h
        refine ⟨hw, kd :: pre, kd2, post, l.Items.map (a.wrap kd k.cs k.namespace_) ++ found,
          s1, p2, e0, by simp [hk], by simp [listAll, hl, hall], hfail, he⟩

/-- C5: `Workloads` is all-or-nothing. When the listings of the kinds before `kd` in
the fixed order succeed and the listing of `kd` fails, `Workloads` returns no
workloads and the listing error wrapped with the name of `kd`, in the state that
listing left; a returned error always arises so and comes with no workloads; and a
return without error means all seven listings succeeded. -/
theorem Workloads_all_or_nothing {σ Obj W : Type} (k : Provider σ Obj) (a : Adapters σ Obj W)
    (cv : ContainerVersion) (s : σ) :
    (∀ pre kd post found s1 p e s2, kindOrder = pre ++ kd :: post →
      listAll k a (listOptsOf a cv) pre s = some (found, s1) →
      k.cs.lister kd k.namespace_ (listOptsOf a cv) s1 = ((p, some e), s2) →
      k.Workloads a cv s =
        .value (([], some (Wrapf e ("failed to get " ++ kd.listName))), s2)) ∧
    (∀ ws e s', k.Workloads a cv s = .value ((ws, some e), s') →
      ws = [] ∧ ∃ pre kd post found s1 p e0, kindOrder = pre ++ kd :: post ∧
        listAll k a (listOptsOf a cv) pre s = some (found, s1) ∧
        k.cs.lister kd k.namespace_ (listOptsOf a cv) s1 = ((p, some e0), s') ∧
        e = Wrapf e0 ("failed to get " ++ kd.listName)) ∧
    (∀ ws s', k.Workloads a cv s = .value ((ws, none), s') →
      listAll k a (listOptsOf a cv) kindOrder s = some (ws, s')) := by
  refine ⟨?_, ?_, ?_⟩
  · intro pre kd post found s1 p e s2 hk hall hfail
    rw [Workloads_eq_listFrom, hk, listFrom_of_listAll k a _ pre (kd :: post) [] found s s1 hall]
    exact listFrom_fail k a _ kd post _ s1 s2 p e hfail
  · intro ws e s' h
    rw [Workloads_eq_listFrom] at h
    exact listFrom_error_inv k a _ kindOrder [] ws e s s' h
  · intro ws s' h
    rw [Workloads_eq_listFrom] at h
    obtain ⟨found, hf, hw⟩ := listFrom_success_inv k a _ kindOrder [] ws s s' h
    simp only [List.nil_append] at hw
    rw [hw]
    exact hf

/-- Witness for C5: with the job listing failing, `Workloads` for `cv1` returns the
wrapped error and none of the workloads of the three kinds listed before. -/
theorem Workloads_all_or_nothing_witness :
    exampleProvider.Workloads exampleAdapters exampleCV1 clusterBrokenJobs =
      .value (([], some (Wrapf unavailable "failed to get jobs")),
        { clusterBrokenJobs with log := [.list .Deployment "a", .list .CronJob "a",
            .list .DaemonSet "a", .list .Job "a"] }) :=
  (Workloads_all_or_nothing exampleProvider exampleAdapters exampleCV1 clusterBrokenJobs).1
    [.Deployment, .CronJob, .DaemonSet] .Job [.Pod, .ReplicaSet, .StatefulSet]
    [⟨.Deployment, "default", "web"⟩]
    { clusterBrokenJobs with log := [.list .Deployment "a", .list .CronJob "a",
        .list .DaemonSet "a"] }
    none unavailable _ (by decide) (by decide) (by decide)

/-- C6: when the seven listings succeed, each issued in the state the previous one
left, `Workloads` returns without error exactly the wrapped items of the listings
concatenated in the order Deployments, CronJobs, DaemonSets, Jobs, Pods,
ReplicaSets, StatefulSets, each in its own order; the length is the sum of the
seven lengths, and the list is empty when every listing is empty. -/
theorem Workloads_concatenates_in_kind_order {σ Obj W : Type} (k : Provider σ Obj)
    (a : Adapters σ Obj W) (cv : ContainerVersion) (s0 s1 s2 s3 s4 s5 s6 s7 : σ)
    (deployments cronJobs daemonSets jobs pods replicaSets statefulSets : ObjectList Obj)
    (h1 : k.cs.Deployments k.namespace_ (listOptsOf a cv) s0 = ((some deployments, none), s1))
    (h2 : k.cs.CronJobs k.namespace_ (listOptsOf a cv) s1 = ((some cronJobs, none), s2))
    (h3 : k.cs.DaemonSets k.namespace_ (listOptsOf a cv) s2 = ((some daemonSets, none), s3))
    (h4 : k.cs.Jobs k.namespace_ (listOptsOf a cv) s3 = ((some jobs, none), s4))
    (h5 : k.cs.Pods k.namespace_ (listOptsOf a cv) s4 = ((some pods, none), s5))
    (h6 : k.cs.ReplicaSets k.namespace_ (listOptsOf a cv) s5 = ((some replicaSets, none), s6))
    (h7 : k.cs.StatefulSets k.namespace_ (listOptsOf a cv) s6 =
      ((some statefulSets, none), s7)) :
    ∃ ws, k.Workloads a cv s0 = .value ((ws, none), s7) ∧
      ws = deployments.Items.map (a.NewDeployment k.cs k.namespace_) ++
        cronJobs.Items.map (a.NewCronJob k.cs k.namespace_) ++
        daemonSets.Items.map (a.NewDaemonSet k.cs k.namespace_) ++
        jobs.Items.map (a.NewJob k.cs k.namespace_) ++
        pods.Items.map (a.NewPod k.cs k.namespace_) ++
        replicaSets.Items.map (a.NewReplicaSet k.cs k.namespace_) ++
        statefulSets.Items.map (a.NewStatefulSet k.cs k.namespace_) ∧
      ws.length = deployments.Items.length + cronJobs.Items.length +
        daemonSets.Items.length + jobs.Items.length + pods.Items.length +
        replicaSets.Items.length + statefulSets.Items.length ∧
      (deployments.Items = [] → cronJobs.Items = [] → daemonSets.Items = [] →
        jobs.Items = [] → pods.Items = [] → replicaSets.Items = [] →
        statefulSets.Items = [] → ws = []) := by
  simp only [listOptsOf] at h1 h2 h3 h4 h5 h6 h7
  refine ⟨_, ?_, rfl, ?_, ?_⟩
  · simp only [Provider.Workloads, h1, h2, h3, h4, h5, h6, h7, List.nil_append]
  · simp only [List.length_append, List.length_map]
  · intro e1 e2 e3 e4 e5 e6 e7
    simp [e1, e2, e3, e4, e5, e6, e7]

/-- Witness for C6: the workloads of `cv1` in the example cluster are its deployment
and its two pods, in kind order; a declaration matching nothing yields the empty
list and no error. -/
theorem Workloads_concatenates_in_kind_order_witness :
    (∃ ws, exampleProvider.Workloads exampleAdapters exampleCV1 cluster0 =
        .value ((ws, none), listedUpTo 7) ∧
      ws = [⟨.Deployment, "default", "web"⟩, ⟨.Pod, "default", "web-1"⟩,
        ⟨.Pod, "default", "web-2"⟩]) ∧
    exampleProvider.Workloads exampleAdapters (declaration "cv3" "none") cluster0 =
      .value (([], none),
        { cluster0 with log := kindOrder.map (fun kd => .list kd "none") }) := by
  refine ⟨?_, by decide⟩
  obtain ⟨ws, hrun, hws, -, -⟩ :=
    Workloads_concatenates_in_kind_order exampleProvider exampleAdapters exampleCV1
      cluster0 (listedUpTo 1) (listedUpTo 2) (listedUpTo 3) (listedUpTo 4) (listedUpTo 5)
      (listedUpTo 6) (listedUpTo 7) ⟨["web"]⟩ ⟨[]⟩ ⟨[]⟩ ⟨[]⟩ ⟨["web-1", "web-2"]⟩ ⟨[]⟩ ⟨[]⟩
      (by decide) (by decide) (by decide) (by decide) (by decide) (by decide) (by decide)
  exact ⟨ws, hrun, by rw [hws]; decide⟩

/-! ## Aggregation -/

theorem CVResources_of_Workloads {σ Obj W : Type} (k : Provider σ Obj) (a : Adapters σ Obj W)
    (cv : ContainerVersion) (s s1 : σ) (ws : List W)
    (h : k.Workloads a cv s = .value ((ws, none), s1)) :
    k.CVResources a cv s = .value ((ws.map (fun w => a.AsResource w cv), none), s1) := by
  simp [Provider.CVResources, h]

theorem workloadsAll_decls {σ Obj W : Type} (k : Provider σ Obj) (a : Adapters σ Obj W)
    (cvs : List ContainerVersion) :
    ∀ (s s1 : σ) (found : List (ContainerVersion × List W)),
      workloadsAll k a cvs s = some (found, s1) → found.map (fun p => p.1) = cvs := by
  induction cvs with
  | nil =>
    intro s s1 found h
    simp only [workloadsAll, Option.some.injEq, Prod.mk.injEq] at h
    simp [← h.1]
  | cons cv cvs ih =>
    intro s s1 found h
    unfold workloadsAll at h
    split at h
    · rename_i ws s2 hw
      split at h
      · rename_i found2 s3 hr
        simp only [Option.some.injEq, Prod.mk.injEq] at h
        rw [← h.1]
        simp [ih s2 s3 found2 hr]
      · simp at h
    · simp at h

theorem allResourcesLoop_of_workloadsAll {σ Obj W : Type} (k : Provider σ Obj)
    (a : Adapters σ Obj W) (pre rest : List ContainerVersion) :
    ∀ (acc : List Resource) (s s1 : σ) (found : List (ContainerVersion × List W)),
      workloadsAll k a pre s = some (found, s1) →
      k.allResourcesLoop a (pre ++ rest) acc s =
        k.allResourcesLoop a rest (acc ++ resourcesOf a found) s1 := by
  induction pre with
  | nil =>
    intro acc s s1 found h
    simp only [workloadsAll, Option.some.injEq, Prod.mk.injEq] at h
    obtain ⟨h1, h2⟩ := h
    subst h1 h2
    simp [resourcesOf]
  | cons cv pre ih =>
    intro acc s s1 found h
    unfold workloadsAll at h
    split at h
    · rename_i ws s2 hw
      split at h
      · rename_i found2 s3 hr
        simp only [Option.some.injEq, Prod.mk.injEq] at h
        obtain ⟨h1, h2⟩ := h
        subst h1 h2
        rw [List.cons_append]
        simp only [Provider.allResourcesLoop, CVResources_of_Workloads k a cv s s2 ws hw]
        rw [ih _ s2 s3 found2 hr]
        simp [resourcesOf, List.append_assoc]
      · simp at h
    · simp at h

theorem resourcesOf_length {σ Obj W : Type} (a : Adapters σ Obj W)
    (found : List (ContainerVersion × List W)) :
    (resourcesOf a found).length = (found.map (fun p => p.2.length)).sum := by
  induction found with
  | nil => simp [resourcesOf]
  | cons p found ih =>
    simp only [resourcesOf, List.flatMap_cons, List.length_append, List.length_map,
      List.map_cons, List.sum_cons] at ih ⊢
    rw [ih]

theorem resourcesOf_CV {σ Obj W : Type} (a : Adapters σ Obj W)
    (hCV : ∀ w cv, (a.AsResource w cv).CV = cv.Name)
    (found : List (ContainerVersion × List W)) :
    (resourcesOf a found).map (fun r => r.CV) =
      found.flatMap (fun p => List.replicate p.2.length p.1.Name) := by
  induction found with
  | nil => simp [resourcesOf]
  | cons p found ih =>
    simp only [resourcesOf, List.flatMap_cons, List.map_append, List.map_map] at ih ⊢
    rw [ih]
    congr 1
    apply List.ext_getElem
    · simp
    · intro i h1 h2
      simp [hCV]

/-- C7: when listing the declarations succeeds and `Workloads` succeeds for each of
them in turn, `AllResources` returns without error the resources of all of them in
declaration order, each the `AsResource` of a workload applied to the declaration it
was found under; their number is the sum of the workload counts, and when
`AsResource` records the declaration's name in `CV`, each entry carries the name of
its source declaration. -/
theorem AllResources_collects_every_declaration {σ Obj W : Type} (k : Provider σ Obj)
    (a : Adapters σ Obj W) (s s1 s2 : σ) (cvs : ContainerVersionList)
    (found : List (ContainerVersion × List W))
    (hlist : (k.cvcs k.namespace_).List { LabelSelector := "" } s = ((some cvs, none), s1))
    (hall : workloadsAll k a cvs.Items s1 = some (found, s2)) :
    ∃ rs, k.AllResources a s = .value ((rs, none), s2) ∧
      found.map (fun p => p.1) = cvs.Items ∧
      rs = found.flatMap (fun p => p.2.map (fun w => a.AsResource w p.1)) ∧
      rs.length = (found.map (fun p => p.2.length)).sum ∧
      ((∀ w cv, (a.AsResource w cv).CV = cv.Name) →
        rs.map (fun r => r.CV) =
          found.flatMap (fun p => List.replicate p.2.length p.1.Name)) := by
  refine ⟨resourcesOf a found, ?_, workloadsAll_decls k a cvs.Items s1 s2 found hall, rfl,
    resourcesOf_length a found, fun hCV => resourcesOf_CV a hCV found⟩
  have h := allResourcesLoop_of_workloadsAll k a cvs.Items [] [] s1 s2 found hall
  simp only [List.append_nil, List.nil_append, Provider.allResourcesLoop] at h
  simp only [Provider.AllResources, hlist, h]

/-- Witness for C7: in the example cluster `cv1` owns three workloads and `cv2` two;
`AllResources` returns five resources, named after `cv1`, `cv1`, `cv1`, `cv2`, `cv2`. -/
theorem AllResources_collects_every_declaration_witness :
    ∃ rs s2, exampleProvider.AllResources exampleAdapters cluster0 = .value ((rs, none), s2) ∧
      rs.length = 3 + 2 ∧ rs.map (fun r => r.CV) = ["cv1", "cv1", "cv1", "cv2", "cv2"] := by
  obtain ⟨rs, hrun, -, -, hlen, hcv⟩ :=
    AllResources_collects_every_declaration exampleProvider exampleAdapters cluster0
      { cluster0 with log := [.listCVs] }
      { cluster0 with log := .listCVs :: (kindOrder.map (fun kd => .list kd "a") ++
          kindOrder.map (fun kd => .list kd "b")) }
      ⟨[declaration "cv1" "a", declaration "cv2" "b"]⟩
      [(declaration "cv1" "a", [⟨.Deployment, "default", "web"⟩, ⟨.Pod, "default", "web-1"⟩,
          ⟨.Pod, "default", "web-2"⟩]),
       (declaration "cv2" "b", [⟨.Job, "default", "migrate"⟩,
          ⟨.StatefulSet, "default", "db"⟩])]
      (by decide) (by decide)
  exact ⟨rs, _, hrun, hlen, hcv (fun _ _ => rfl)⟩

/-- C10: `AllResources` aborts on the first failure. When listing the declarations
fails, or when `Workloads` succeeded for the declarations before `d` and
`CVResources` fails for `d`, it returns no resources and the wrapped error, and the
state it leaves is the one the failing call left: nothing is called for the
declarations after `d`. -/
theorem AllResources_aborts_on_first_failure {σ Obj W : Type} (k : Provider σ Obj)
    (a : Adapters σ Obj W) (s : σ) :
    (∀ p e s1, (k.cvcs k.namespace_).List { LabelSelector := "" } s = ((p, some e), s1) →
      k.AllResources a s =
        .value (([], some (Wrap e "Failed to generate template of CV list")), s1)) ∧
    (∀ cvs s1 pre d post found s2 rs e s3,
      (k.cvcs k.namespace_).List { LabelSelector := "" } s = ((some cvs, none), s1) →
      cvs.Items = pre ++ d :: post →
      workloadsAll k a pre s1 = some (found, s2) →
      k.CVResources a d s2 = .value ((rs, some e), s3) →
      k.AllResources a s =
        .value (([], some (Wrap e "Failed to generate template of CV list")), s3)) := by
  refine ⟨?_, ?_⟩
  · intro p e s1 h
    simp [Provider.AllResources, h]
  · intro cvs s1 pre d post found s2 rs e s3 hlist hitems hall hfail
    simp only [Provider.AllResources, hlist, hitems]
    rw [allResourcesLoop_of_workloadsAll k a pre (d :: post) [] s1 s2 found hall]
    simp [Provider.allResourcesLoop, hfail]

/-- Witness for C10: with three declarations and the job listing failing for the
second, `AllResources` returns the wrapped error and no resources, and the recorded
calls end with the failing job listing: nothing is listed for the third declaration. -/
theorem AllResources_aborts_on_first_failure_witness :
    exampleProvider.AllResources exampleAdapters cluster3 =
      .value (([], some (Wrap (WithStack (Wrapf unavailable "failed to get jobs"))
          "Failed to generate template of CV list")),
        { cluster3 with log := .listCVs :: (kindOrder.map (fun kd => .list kd "a") ++
            [.list .Deployment "b", .list .CronJob "b", .list .DaemonSet "b",
             .list .Job "b"]) }) :=
  (AllResources_aborts_on_first_failure exampleProvider exampleAdapters cluster3).2
    ⟨cluster3.cvs⟩ { cluster3 with log := [.listCVs] }
    [declaration "cv1" "a"] (declaration "cv2" "b") [declaration "cv3" "c"]
    [(declaration "cv1" "a", [⟨.Deployment, "default", "web"⟩, ⟨.Pod, "default", "web-1"⟩,
        ⟨.Pod, "default", "web-2"⟩])]
    { cluster3 with log := .listCVs :: kindOrder.map (fun kd => .list kd "a") }
    [] _ _ (by decide) (by decide) (by decide) (by decide)

end Cvmanager
